import Mathlib

/-!
# Verification of `shared/python/security_helpers.py`

A shallow embedding of the security helpers of the
`aws-ssm-automation-scripts` repository, together with theorems settling the
specification's claims about them.

Conventions of the embedding:
* Python dict lookups with `.get(key, default)` on optional keys become
  `Option` fields read with `Option.getD`.
* Each boto3 API call made by a helper becomes an explicit input of the
  embedded function: a value of type `Except String α` (the `.error` case is
  a raised `botocore` `ClientError`, carrying `str(e)`), or a function
  returning such a value when the helper calls the API once per item.
* Machine integers do not overflow anywhere in this code (ports, counters),
  so they are `Int`/`Nat` directly.
-/

namespace SecurityHelpers

/-! ## Model of the Python `ipaddress` standard library (the part used)

`is_public_cidr` delegates parsing and classification to
`ipaddress.ip_network` (strict mode). The subset modelled here:
`ip_network(s)` for IPv4 in dotted-quad form with an optional
`/prefixlen`, `/netmask` or `/hostmask` part, and for IPv6 in hextet form
(with `::` compression and an optional embedded IPv4 tail) with an optional
`/prefixlen` part. `is_private` / `is_reserved` of a network are, as in
CPython, the conjunction of membership of the network's first and last
address in the respective fixed address-block tables. -/

/-- `str.split(sep)` of Python for a one-character separator, on char lists:
`splitOnChar '.' "a..b".data = ["a", "", "b"].map String.data`. -/
def splitOnChar (sep : Char) : List Char → List (List Char)
  | [] => [[]]
  | c :: rest =>
    let r := splitOnChar sep rest
    if c = sep then [] :: r
    else
      match r with
      | h :: t => (c :: h) :: t
      | [] => [[c]]

/-- Decimal value of a digit string (callers check the digits first). -/
def digitsVal (l : List Char) : Nat :=
  l.foldl (fun a c => a * 10 + (c.toNat - 48)) 0

/-- `ipaddress._parse_octet`: at most 3 characters, decimal digits only, no
leading zeroes (CPython ≥ 3.9.5), value at most 255. -/
def parseDecOctet (l : List Char) : Option Nat :=
  if l = [] ∨ 3 < l.length ∨ ¬ l.all Char.isDigit then none
  else if 1 < l.length ∧ l.head? = some '0' then none
  else if digitsVal l ≤ 255 then some (digitsVal l) else none

/-- `ipaddress.IPv4Address._ip_int_from_string`: four octets joined by `.`. -/
def parseIPv4Addr (l : List Char) : Option Nat :=
  match (splitOnChar '.' l).map parseDecOctet with
  | [some a, some b, some c, some d] => some (((a * 256 + b) * 256 + c) * 256 + d)
  | _ => none

/-- The integer value of the IPv4 netmask of a given prefix length. -/
def v4NetmaskInt (p : Nat) : Nat := 2 ^ 32 - 2 ^ (32 - p)

/-- The integer value of the IPv4 hostmask of a given prefix length. -/
def v4HostmaskInt (p : Nat) : Nat := 2 ^ (32 - p) - 1

/-- `IPv4Network._prefix_from_ip_int`, with the hostmask fallback of
`_make_netmask`: a dotted-quad mask is accepted as a netmask first and as a
hostmask second, yielding its prefix length. -/
def v4PfxFromMask (m : Nat) : Option Nat :=
  match (List.range 33).find? (fun p => v4NetmaskInt p == m) with
  | some p => some p
  | none => (List.range 33).find? (fun p => v4HostmaskInt p == m)

/-- The prefix part after `/` for IPv4: a decimal prefix length at most 32,
else a dotted-quad netmask or hostmask (`IPv4Network._make_netmask`). -/
def parseV4Pfx (l : List Char) : Option Nat :=
  if l ≠ [] ∧ l.all Char.isDigit then
    if digitsVal l ≤ 32 then some (digitsVal l) else none
  else
    match parseIPv4Addr l with
    | some m => v4PfxFromMask m
    | none => none

/-- Splitting `addr/mask`: `_split_optional_netmask` rejects more than one
`/`; a missing mask part is `none`. -/
def splitCidr (l : List Char) : Option (List Char × Option (List Char)) :=
  match splitOnChar '/' l with
  | [a] => some (a, none)
  | [a, m] => some (a, some m)
  | _ => none

/-- IPv4 network-constructor parsing before the strict host-bits check:
the address, and the prefix length (32 when no `/` part is given). -/
def parseIPv4Lenient (l : List Char) : Option (Nat × Nat) :=
  match splitCidr l with
  | none => none
  | some (a, pfxPart) =>
    match parseIPv4Addr a with
    | none => none
    | some addr =>
      match pfxPart with
      | none => some (addr, 32)
      | some m =>
        match parseV4Pfx m with
        | some p => some (addr, p)
        | none => none

/-- Value of one hexadecimal digit. -/
def hexDigitVal (c : Char) : Option Nat :=
  if c.isDigit then some (c.toNat - 48)
  else if 'a' ≤ c ∧ c ≤ 'f' then some (c.toNat - 97 + 10)
  else if 'A' ≤ c ∧ c ≤ 'F' then some (c.toNat - 65 + 10)
  else none

/-- `IPv6Address._parse_hextet`: 1 to 4 hexadecimal digits. -/
def parseHextet (l : List Char) : Option Nat :=
  if l = [] ∨ 4 < l.length then none
  else
    l.foldl
      (fun acc c =>
        match acc, hexDigitVal c with
        | some v, some d => some (v * 16 + d)
        | _, _ => none)
      (some 0)

/-- One hexadecimal digit as a character, lowercase (as Python `'%x'`). -/
def hexDigitChar (n : Nat) : Char :=
  if n < 10 then Char.ofNat (48 + n) else Char.ofNat (87 + n)

/-- Python `'%x' % n` for `n < 65536`: no leading zeroes, lowercase. Used
when an embedded IPv4 tail is rewritten into two hextets. -/
def toHex4 (n : Nat) : List Char :=
  if n < 16 then [hexDigitChar (n % 16)]
  else if n < 256 then [hexDigitChar (n / 16 % 16), hexDigitChar (n % 16)]
  else if n < 4096 then
    [hexDigitChar (n / 256 % 16), hexDigitChar (n / 16 % 16), hexDigitChar (n % 16)]
  else
    [hexDigitChar (n / 4096 % 16), hexDigitChar (n / 256 % 16),
     hexDigitChar (n / 16 % 16), hexDigitChar (n % 16)]

/-- Folding already-checked hextet parts into an address value, failing if
any part is not a hextet. -/
def hextetsVal (l : List (List Char)) : Option Nat :=
  l.foldl
    (fun acc p =>
      match acc, parseHextet p with
      | some v, some h => some (v * 65536 + h)
      | _, _ => none)
    (some 0)

/-- `IPv6Address._ip_int_from_string`: split on `:`, at least 3 parts; an
IPv4-looking last part becomes two hextets; at most 9 parts; at most one
empty inner part (the `::`), an empty first/last part only as part of a
leading/trailing `::`; the parts before and after the `::` fill the 8
hextets from both ends, with at least one zero hextet skipped. -/
def parseIPv6Addr (l : List Char) : Option Nat :=
  let parts0 := splitOnChar ':' l
  if parts0.length < 3 then none
  else
    let partsOpt : Option (List (List Char)) :=
      match parts0.getLast? with
      | some last =>
        if last.contains '.' then
          match parseIPv4Addr last with
          | some v4 => some (parts0.dropLast ++ [toHex4 (v4 / 65536), toHex4 (v4 % 65536)])
          | none => none
        else some parts0
      | none => none
    match partsOpt with
    | none => none
    | some parts =>
      if 9 < parts.length then none
      else
        let innerEmpties :=
          (List.range parts.length).filter fun i =>
            decide (0 < i) && decide (i < parts.length - 1) && (parts.getD i [' '] == ([] : List Char))
        match innerEmpties with
        | [] =>
          if parts.length ≠ 8 then none
          else if parts.head? = some [] ∨ parts.getLast? = some [] then none
          else hextetsVal parts
        | [i] =>
          let hiOpt : Option Nat :=
            if parts.head? = some [] then (if i = 1 then some 0 else none) else some i
          let loOpt : Option Nat :=
            if parts.getLast? = some [] then
              (if parts.length - i - 1 = 1 then some 0 else none)
            else some (parts.length - i - 1)
          match hiOpt, loOpt with
          | some hi, some lo =>
            if 8 - (hi + lo) < 1 then none
            else
              match hextetsVal (parts.take hi), hextetsVal (parts.drop (parts.length - lo)) with
              | some hv, some lv => some ((hv * 2 ^ (16 * (8 - (hi + lo)))) * 2 ^ (16 * lo) + lv)
              | _, _ => none
          | _, _ => none
        | _ => none

/-- The prefix part after `/` for IPv6: a decimal prefix length at most 128
(`IPv6Network._make_netmask` accepts no netmask notation). -/
def parseV6Pfx (l : List Char) : Option Nat :=
  if l ≠ [] ∧ l.all Char.isDigit then
    if digitsVal l ≤ 128 then some (digitsVal l) else none
  else none

/-- IPv6 network-constructor parsing before the strict host-bits check. -/
def parseIPv6Lenient (l : List Char) : Option (Nat × Nat) :=
  match splitCidr l with
  | none => none
  | some (a, pfxPart) =>
    match parseIPv6Addr a with
    | none => none
    | some addr =>
      match pfxPart with
      | none => some (addr, 128)
      | some m =>
        match parseV6Pfx m with
        | some p => some (addr, p)
        | none => none

/-- A parsed IP network: the (host-bits-clear) base address and the prefix
length, in either address family. -/
inductive IpNet where
  | v4 (addr : Nat) (pfx : Nat)
  | v6 (addr : Nat) (pfx : Nat)
deriving DecidableEq, Repr

/-- `ipaddress.ip_network(s)` with the default `strict=True`, as observed by
`is_public_cidr`: IPv4 syntax is tried first; IPv6 only when the string is
not an IPv4 network with or without host bits set (a strict host-bits
failure raises a plain `ValueError`, which `ip_network` does not catch as a
reason to try IPv6 — either way `is_public_cidr`'s handler sees no network,
so both outcomes are `none` here). -/
def ip_network (s : String) : Option IpNet :=
  match parseIPv4Lenient s.data with
  | some (a, p) => if a % 2 ^ (32 - p) = 0 then some (.v4 a p) else none
  | none =>
    match parseIPv6Lenient s.data with
    | some (a, p) => if a % 2 ^ (128 - p) = 0 then some (.v6 a p) else none
    | none => none

/-- An IPv4 address value from its four octets. -/
def mkV4 (a b c d : Nat) : Nat := ((a * 256 + b) * 256 + c) * 256 + d

/-- An IPv6 address value from its eight hextets. -/
def mkV6 (a b c d e f g h : Nat) : Nat :=
  ((((((a * 65536 + b) * 65536 + c) * 65536 + d) * 65536 + e) * 65536 + f) * 65536 + g)
      * 65536 + h

/-- CPython `IPv4Address._constants._private_networks`. -/
def v4PrivateNetworks : List (Nat × Nat) :=
  [(mkV4 0 0 0 0, 8), (mkV4 10 0 0 0, 8), (mkV4 127 0 0 0, 8), (mkV4 169 254 0 0, 16),
   (mkV4 172 16 0 0, 12), (mkV4 192 0 0 0, 29), (mkV4 192 0 0 170, 31),
   (mkV4 192 0 2 0, 24), (mkV4 192 168 0 0, 16), (mkV4 198 18 0 0, 15),
   (mkV4 198 51 100 0, 24), (mkV4 203 0 113 0, 24), (mkV4 240 0 0 0, 4),
   (mkV4 255 255 255 255, 32)]

/-- CPython `IPv4Address.is_reserved`'s block. -/
def v4ReservedNetworks : List (Nat × Nat) := [(mkV4 240 0 0 0, 4)]

/-- CPython `IPv6Address._constants._private_networks`. -/
def v6PrivateNetworks : List (Nat × Nat) :=
  [(1, 128), (0, 128), (mkV6 0 0 0 0 0 0xffff 0 0, 96), (mkV6 0x100 0 0 0 0 0 0 0, 64),
   (mkV6 0x2001 0 0 0 0 0 0 0, 23), (mkV6 0x2001 2 0 0 0 0 0 0, 48),
   (mkV6 0x2001 0xdb8 0 0 0 0 0 0, 32), (mkV6 0x2001 0x10 0 0 0 0 0 0, 28),
   (mkV6 0xfc00 0 0 0 0 0 0 0, 7), (mkV6 0xfe80 0 0 0 0 0 0 0, 10)]

/-- CPython `IPv6Address._constants._reserved_networks`. -/
def v6ReservedNetworks : List (Nat × Nat) :=
  [(0, 8), (mkV6 0x100 0 0 0 0 0 0 0, 8), (mkV6 0x200 0 0 0 0 0 0 0, 7),
   (mkV6 0x400 0 0 0 0 0 0 0, 6), (mkV6 0x800 0 0 0 0 0 0 0, 5),
   (mkV6 0x1000 0 0 0 0 0 0 0, 4), (mkV6 0x4000 0 0 0 0 0 0 0, 3),
   (mkV6 0x6000 0 0 0 0 0 0 0, 3), (mkV6 0x8000 0 0 0 0 0 0 0, 3),
   (mkV6 0xa000 0 0 0 0 0 0 0, 3), (mkV6 0xc000 0 0 0 0 0 0 0, 3),
   (mkV6 0xe000 0 0 0 0 0 0 0, 4), (mkV6 0xf000 0 0 0 0 0 0 0, 5),
   (mkV6 0xf800 0 0 0 0 0 0 0, 6), (mkV6 0xfe00 0 0 0 0 0 0 0, 9)]

/-- `address in network` of `ipaddress`: an integer comparison against the
network's first and last address; `bits` is the family's address width. -/
def addrInNetB (bits : Nat) (x : Nat) (net : Nat × Nat) : Bool :=
  decide (net.1 ≤ x) && decide (x ≤ net.1 + 2 ^ (bits - net.2) - 1)

/-- `IPv4Address.is_private`: membership in any listed private block. -/
def v4AddrIsPrivate (x : Nat) : Bool := v4PrivateNetworks.any (addrInNetB 32 x)

/-- `IPv4Address.is_reserved`. -/
def v4AddrIsReserved (x : Nat) : Bool := v4ReservedNetworks.any (addrInNetB 32 x)

/-- `IPv6Address.is_private`. -/
def v6AddrIsPrivate (x : Nat) : Bool := v6PrivateNetworks.any (addrInNetB 128 x)

/-- `IPv6Address.is_reserved`. -/
def v6AddrIsReserved (x : Nat) : Bool := v6ReservedNetworks.any (addrInNetB 128 x)

/-- `_BaseNetwork.is_private`: the network's first and last address are both
private. -/
def IpNet.isPrivate : IpNet → Bool
  | .v4 a p => v4AddrIsPrivate a && v4AddrIsPrivate (a + 2 ^ (32 - p) - 1)
  | .v6 a p => v6AddrIsPrivate a && v6AddrIsPrivate (a + 2 ^ (128 - p) - 1)

/-- `_BaseNetwork.is_reserved`: the network's first and last address are
both reserved. -/
def IpNet.isReserved : IpNet → Bool
  | .v4 a p => v4AddrIsReserved a && v4AddrIsReserved (a + 2 ^ (32 - p) - 1)
  | .v6 a p => v6AddrIsReserved a && v6AddrIsReserved (a + 2 ^ (128 - p) - 1)

/-- `security_helpers.is_public_cidr` (lines 17-43). -/
def is_public_cidr (cidr : String) : Bool :=
  if cidr = "" then false
  else if cidr = "0.0.0.0/0" ∨ cidr = "::/0" then true
  else
    match ip_network cidr with
    | some network =>
      if network.isPrivate = false ∧ network.isReserved = false then true else false
    | none => false

/-! ## Substring test

`check_iam_password_policy` and `check_s3_bucket_encryption` branch on
`"..." in str(e)`; modelled by a plain substring search. -/

/-- Whether `pat` occurs as a contiguous run inside `l`. -/
def charsContains (pat : List Char) : List Char → Bool
  | [] => pat.isEmpty
  | c :: rest => pat.isPrefixOf (c :: rest) || charsContains pat rest

/-- Python `pat in s` on strings. -/
def strContains (s pat : String) : Bool := charsContains pat.data s.data

/-! ## Security group check (`check_security_group_rules`, lines 46-145)

The `describe_security_groups` call is the `describe` input: `.error` is a
raised `ClientError`; the empty list stands for every falsy-response case of
lines 65-69 (no response, missing key, empty list), which the code treats
identically. -/

/-- One entry of a rule's `IpRanges` list. -/
structure IpRange where
  CidrIp : Option String
deriving Repr, DecidableEq

/-- One ingress rule of `IpPermissions`. -/
structure IpPermission where
  FromPort : Option Int
  ToPort : Option Int
  IpProtocol : Option String
  IpRanges : List IpRange
deriving Repr, DecidableEq

/-- A security group as returned by `describe_security_groups`. -/
structure SecurityGroup where
  GroupName : Option String
  VpcId : Option String
  IpPermissions : List IpPermission
deriving Repr, DecidableEq

/-- One issue dict built at lines 114-126. The Python dict key `"Type"` is
the field `IssueType` (`Type` is reserved in Lean). -/
structure SGIssue where
  IssueType : String
  Severity : String
  FromPort : Int
  ToPort : Int
  IpProtocol : String
  Cidr : String
  AffectedPorts : List Int
  Description : String
deriving Repr, DecidableEq

/-- The default `high_risk_ports` of line 59. -/
def defaultHighRiskPorts : List Int :=
  [22, 3389, 5432, 3306, 1433, 27017, 6379, 9200, 8080, 8443]

/-- Line 58: a falsy `high_risk_ports` argument (absent or empty) is
replaced by the default list. -/
def effectiveHighRiskPorts : Option (List Int) → List Int
  | none => defaultHighRiskPorts
  | some [] => defaultHighRiskPorts
  | some (p :: rest) => p :: rest

/-- The port loop of lines 103-106: accumulates the high-risk flag and the
affected ports over the configured port list. -/
def portScanFold (ports : List Int) (fromPort toPort : Int) : Bool × List Int :=
  ports.foldl
    (fun acc port =>
      if fromPort ≤ port ∧ port ≤ toPort then (true, acc.2 ++ [port]) else acc)
    (false, [])

/-- The body of the `for ip_range in rule.get("IpRanges", [])` loop (lines
90-127) for one attached range: `some issue` when an issue is appended. -/
def issueForRange (high : List Int) (rule : IpPermission) (ipRange : IpRange) : Option SGIssue :=
  let fromPort := rule.FromPort.getD 0
  let toPort := rule.ToPort.getD 65535
  let ipProtocol := rule.IpProtocol.getD "-1"
  let cidr := ipRange.CidrIp.getD ""
  if is_public_cidr cidr then
    let scanned := if ipProtocol = "-1" then (true, high) else portScanFold high fromPort toPort
    let protocolStr := if ipProtocol ≠ "-1" then ipProtocol.toUpper else "ALL"
    let portStr :=
      if fromPort = toPort then toString fromPort else s!"{fromPort}-{toPort}"
    some
      { IssueType := "PublicAccess"
        Severity := if scanned.1 then "HIGH" else "MEDIUM"
        FromPort := fromPort
        ToPort := toPort
        IpProtocol := ipProtocol
        Cidr := cidr
        AffectedPorts := scanned.2
        Description := s!"Public access ({cidr}) allowed to {protocolStr} port(s) {portStr}" }
  else none

/-- The result dict of `check_security_group_rules`; keys absent on a branch
are `none` (`Issues`, counters) on the other branches. -/
structure SGCheckResult where
  SecurityGroupId : String
  SecurityGroupName : Option String
  VpcId : Option String
  Status : String
  Issues : Option (List SGIssue)
  TotalIssues : Option Nat
  HighRiskIssues : Option Nat
  Error : Option String
deriving Repr

/-- `security_helpers.check_security_group_rules` (lines 46-145). -/
def check_security_group_rules (securityGroupId : String) (highRiskPorts : Option (List Int))
    (describe : Except String (List SecurityGroup)) : SGCheckResult :=
  let high := effectiveHighRiskPorts highRiskPorts
  match describe with
  | .error e =>
    { SecurityGroupId := securityGroupId, SecurityGroupName := none, VpcId := none,
      Status := "Error", Issues := none, TotalIssues := none, HighRiskIssues := none,
      Error := some e }
  | .ok [] =>
    { SecurityGroupId := securityGroupId, SecurityGroupName := none, VpcId := none,
      Status := "Error", Issues := none, TotalIssues := none, HighRiskIssues := none,
      Error := some "Security group not found" }
  | .ok (sg :: _) =>
    let issues := sg.IpPermissions.flatMap fun rule =>
      rule.IpRanges.filterMap (issueForRange high rule)
    { SecurityGroupId := securityGroupId
      SecurityGroupName := some (sg.GroupName.getD "Unknown")
      VpcId := some (sg.VpcId.getD "default")
      Status := if issues ≠ [] then "HasIssues" else "Clean"
      Issues := some issues
      TotalIssues := some issues.length
      HighRiskIssues := some (issues.filter fun i => i.Severity == "HIGH").length
      Error := none }

/-! ## Remediation (`remediate_security_group_issues`, lines 148-215)

The `revoke_security_group_ingress` call is the `revoke` input, a function
of the reconstructed request (protocol, from-port, to-port, CIDR); `.error`
is a raised `ClientError`. -/

/-- One entry of the `failed_remediations` list. -/
structure RemediationFailure where
  Issue : SGIssue
  Error : String
deriving Repr, DecidableEq

/-- The result dict of `remediate_security_group_issues`. The nested
`Details` dict becomes the two `Details*` fields. -/
structure RemediationResult where
  SecurityGroupId : String
  Status : String
  Message : Option String
  RemediatedIssues : Option Nat
  FailedRemediations : Option Nat
  DetailsRemediated : Option (List SGIssue)
  DetailsFailed : Option (List RemediationFailure)
deriving Repr

/-- One iteration of the `for issue in issues` loop (lines 170-200),
threading the `remediated_issues` and `failed_remediations` lists. -/
def remediationStep (revoke : String → Int → Int → String → Except String Unit)
    (acc : List SGIssue × List RemediationFailure) (issue : SGIssue) :
    List SGIssue × List RemediationFailure :=
  if issue.IssueType = "PublicAccess" then
    if issue.Cidr = "" then
      (acc.1, acc.2 ++ [{ Issue := issue, Error := "Missing CIDR information" }])
    else
      match revoke issue.IpProtocol issue.FromPort issue.ToPort issue.Cidr with
      | .ok _ => (acc.1 ++ [issue], acc.2)
      | .error e => (acc.1, acc.2 ++ [{ Issue := issue, Error := e }])
  else acc

/-- `security_helpers.remediate_security_group_issues` (lines 148-215). -/
def remediate_security_group_issues (securityGroupId : String) (issues : List SGIssue)
    (revoke : String → Int → Int → String → Except String Unit) : RemediationResult :=
  if issues = [] then
    { SecurityGroupId := securityGroupId, Status := "NoIssues",
      Message := some "No issues to remediate", RemediatedIssues := none,
      FailedRemediations := none, DetailsRemediated := none, DetailsFailed := none }
  else
    let acc := issues.foldl (remediationStep revoke) ([], [])
    { SecurityGroupId := securityGroupId
      Status :=
        if acc.1 ≠ [] ∧ acc.2 = [] then "Remediated"
        else if acc.1 ≠ [] then "PartiallyRemediated"
        else "Failed"
      Message := none
      RemediatedIssues := some acc.1.length
      FailedRemediations := some acc.2.length
      DetailsRemediated := some acc.1
      DetailsFailed := some acc.2 }

/-! ## S3 bucket encryption (lines 218-276 and 319-366) -/

/-- The `ApplyServerSideEncryptionByDefault` dict of one rule. -/
structure SSEDefault where
  SSEAlgorithm : Option String
  KMSMasterKeyID : Option String
deriving Repr, DecidableEq

/-- One entry of the encryption configuration's `Rules` list. -/
structure SSERule where
  ApplyServerSideEncryptionByDefault : Option SSEDefault
deriving Repr, DecidableEq

/-- A `ServerSideEncryptionConfiguration` dict. -/
structure SSEConfig where
  Rules : List SSERule
deriving Repr, DecidableEq

/-- The `SSEAlgorithm` read at lines 246-247: missing dicts default to
empty. -/
def ruleAlg (rule : SSERule) : String :=
  ((rule.ApplyServerSideEncryptionByDefault.getD
      { SSEAlgorithm := none, KMSMasterKeyID := none }).SSEAlgorithm).getD ""

/-- The result dict of `check_s3_bucket_encryption`. -/
structure S3EncryptionResult where
  BucketName : String
  Status : String
  Message : Option String
  HasSSE : Option Bool
  HasKMS : Option Bool
  EncryptionRules : Option (List SSERule)
  Error : Option String
deriving Repr

/-- `security_helpers.check_s3_bucket_encryption` (lines 218-276). The
`get_bucket_encryption` call is the `fetch` input; a response without the
configuration key is `.ok` with an empty rule list (line 232's defaults). -/
def check_s3_bucket_encryption (bucketName : String)
    (fetch : Except String SSEConfig) : S3EncryptionResult :=
  match fetch with
  | .ok cfg =>
    if cfg.Rules = [] then
      { BucketName := bucketName, Status := "Unencrypted",
        Message := some "No encryption rules found", HasSSE := none, HasKMS := none,
        EncryptionRules := none, Error := none }
    else
      let hasSSE := cfg.Rules.any fun rule => ruleAlg rule != ""
      let hasKMS := cfg.Rules.any fun rule => ruleAlg rule == "aws:kms"
      { BucketName := bucketName, Status := "Encrypted", Message := none,
        HasSSE := some hasSSE, HasKMS := some hasKMS,
        EncryptionRules := some cfg.Rules, Error := none }
  | .error e =>
    if strContains e "ServerSideEncryptionConfigurationNotFoundError" then
      { BucketName := bucketName, Status := "Unencrypted",
        Message := some "No encryption configuration found", HasSSE := none,
        HasKMS := none, EncryptionRules := none, Error := none }
    else
      { BucketName := bucketName, Status := "Error", Message := none, HasSSE := none,
        HasKMS := none, EncryptionRules := none, Error := some e }

/-- Python truthiness of the optional `kms_key_id` argument (absent or
empty string is falsy). -/
def optStrTruthy : Option String → Bool
  | none => false
  | some s => s != ""

/-- The `encryption_config` built at lines 332-346: one rule, algorithm
`aws:kms` with the key id attached when a truthy key id is supplied, else
`AES256`. -/
def enableEncryptionConfig (kmsKeyId : Option String) : SSEConfig :=
  { Rules :=
      [{ ApplyServerSideEncryptionByDefault := some
          { SSEAlgorithm := some (if optStrTruthy kmsKeyId then "aws:kms" else "AES256")
            KMSMasterKeyID := if optStrTruthy kmsKeyId then kmsKeyId else none } }] }

/-- The result dict of `enable_s3_bucket_encryption`. -/
structure S3EnableResult where
  BucketName : String
  Status : String
  EncryptionType : Option String
  KmsKeyId : Option String
  Error : Option String
deriving Repr

/-- `security_helpers.enable_s3_bucket_encryption` (lines 319-366). The
`put_bucket_encryption` call is the `put` input, a function of the
configuration sent. -/
def enable_s3_bucket_encryption (bucketName : String) (kmsKeyId : Option String)
    (put : SSEConfig → Except String Unit) : S3EnableResult :=
  match put (enableEncryptionConfig kmsKeyId) with
  | .ok _ =>
    { BucketName := bucketName, Status := "Enabled",
      EncryptionType := some (if optStrTruthy kmsKeyId then "KMS" else "AES256"),
      KmsKeyId := kmsKeyId, Error := none }
  | .error e =>
    { BucketName := bucketName, Status := "Error", EncryptionType := none,
      KmsKeyId := none, Error := some e }

/-! ## IAM password policy (`check_iam_password_policy`, lines 369-475) -/

/-- The `PasswordPolicy` dict of `get_account_password_policy`; every key
may be absent. -/
structure PasswordPolicy where
  MinimumPasswordLength : Option Nat
  RequireSymbols : Option Bool
  RequireNumbers : Option Bool
  RequireUppercaseCharacters : Option Bool
  RequireLowercaseCharacters : Option Bool
  PasswordReusePrevention : Option Nat
  MaxPasswordAge : Option Nat
deriving Repr, DecidableEq

/-- `current_value and current_value >= recommended` on an optional numeric
dict value: an absent or zero (falsy) value fails. -/
def truthyGE (v : Option Nat) (recommended : Nat) : Bool :=
  match v with
  | none => false
  | some n => n != 0 && decide (recommended ≤ n)

/-- `current_value and current_value <= recommended`: an absent or zero
(falsy) value fails. -/
def truthyLE (v : Option Nat) (recommended : Nat) : Bool :=
  match v with
  | none => false
  | some n => n != 0 && decide (n ≤ recommended)

/-- `"Compliant" if current_value else "NonCompliant"` on an optional
boolean dict value. -/
def truthyBool : Option Bool → Bool
  | none => false
  | some b => b

/-- The `compliance` dict of lines 394-438 as (key, per-field status)
pairs, in the insertion order of the `best_practices` table (the
`CurrentValue`/`RecommendedValue` echoes of the inputs are omitted). -/
def passwordComplianceEntries (policy : PasswordPolicy) : List (String × String) :=
  [("MinimumPasswordLength",
    if truthyGE policy.MinimumPasswordLength 14 then "Compliant" else "NonCompliant"),
   ("RequireSymbols",
    if truthyBool policy.RequireSymbols then "Compliant" else "NonCompliant"),
   ("RequireNumbers",
    if truthyBool policy.RequireNumbers then "Compliant" else "NonCompliant"),
   ("RequireUppercaseCharacters",
    if truthyBool policy.RequireUppercaseCharacters then "Compliant" else "NonCompliant"),
   ("RequireLowercaseCharacters",
    if truthyBool policy.RequireLowercaseCharacters then "Compliant" else "NonCompliant"),
   ("PasswordReusePrevention",
    if truthyGE policy.PasswordReusePrevention 24 then "Compliant" else "NonCompliant"),
   ("MaxPasswordAge",
    if truthyLE policy.MaxPasswordAge 90 then "Compliant" else "NonCompliant")]

/-- The result dict of `check_iam_password_policy`. -/
structure PolicyCheckResult where
  Status : String
  CompliancePercentage : Option ℚ
  ComplianceDetails : Option (List (String × String))
  CurrentPolicy : Option PasswordPolicy
  Error : Option String
deriving Repr

/-- `security_helpers.check_iam_password_policy` (lines 369-475). The
`get_account_password_policy` call is the `fetch` input. -/
def check_iam_password_policy (fetch : Except String PasswordPolicy) : PolicyCheckResult :=
  match fetch with
  | .ok policy =>
    let compliance := passwordComplianceEntries policy
    let compliantCount := (compliance.filter fun item => item.2 == "Compliant").length
    let totalChecks := compliance.length
    let compliancePercentage : ℚ :=
      if 0 < totalChecks then ((compliantCount : ℚ) / (totalChecks : ℚ)) * 100 else 0
    { Status :=
        if compliancePercentage = 100 then "Compliant"
        else if 0 < compliancePercentage then "PartiallyCompliant"
        else "NonCompliant"
      CompliancePercentage := some compliancePercentage
      ComplianceDetails := some compliance
      CurrentPolicy := some policy
      Error := none }
  | .error e =>
    if strContains e "NoSuchEntity" then
      { Status := "NonCompliant", CompliancePercentage := some 0,
        ComplianceDetails := some [], CurrentPolicy := some
          { MinimumPasswordLength := none, RequireSymbols := none, RequireNumbers := none,
            RequireUppercaseCharacters := none, RequireLowercaseCharacters := none,
            PasswordReusePrevention := none, MaxPasswordAge := none },
        Error := some "No password policy is set" }
    else
      { Status := "Error", CompliancePercentage := none, ComplianceDetails := none,
        CurrentPolicy := none, Error := some e }

/-! ## CloudTrail (`check_cloudtrail_status`, lines 503-575) -/

/-- One trail of `describe_trails`'s `trailList`. -/
structure Trail where
  Name : Option String
  IsMultiRegionTrail : Option Bool
  LogFileValidationEnabled : Option Bool
  IsOrganizationTrail : Option Bool
  KmsKeyId : Option String
deriving Repr, DecidableEq

/-- The `get_trail_status` response (the key read from it). -/
structure TrailStatus where
  IsLogging : Option Bool
deriving Repr, DecidableEq

/-- One entry of the result's `Trails` list (lines 541-555). -/
structure TrailDetail where
  TrailName : String
  IsMultiRegion : Bool
  IsLogging : Bool
  LogFileValidation : Bool
  IsOrganizationTrail : Bool
  KmsEncryption : Bool
  Status : String
deriving Repr, DecidableEq

/-- The body of the `for trail in trails` loop (lines 524-555). A failing
`get_trail_status` call (`.error`) leaves `is_logging` at its initial
`False` (lines 527-534). -/
def trailDetail (getStatus : String → Except String TrailStatus) (trail : Trail) : TrailDetail :=
  let trailName := trail.Name.getD "Unknown"
  let isMultiRegion := trail.IsMultiRegionTrail.getD false
  let isLogging :=
    match getStatus trailName with
    | .ok status => status.IsLogging.getD false
    | .error _ => false
  let logFileValidation := trail.LogFileValidationEnabled.getD false
  { TrailName := trailName
    IsMultiRegion := isMultiRegion
    IsLogging := isLogging
    LogFileValidation := logFileValidation
    IsOrganizationTrail := trail.IsOrganizationTrail.getD false
    KmsEncryption := trail.KmsKeyId.isSome
    Status :=
      if isLogging && isMultiRegion && logFileValidation then "Healthy" else "Suboptimal" }

/-- The result dict of `check_cloudtrail_status`. -/
structure CloudTrailResult where
  Status : String
  Message : Option String
  TrailCount : Option Nat
  HealthyTrailCount : Option Nat
  MultiRegionTrailCount : Option Nat
  Trails : Option (List TrailDetail)
  Error : Option String
deriving Repr

/-- `security_helpers.check_cloudtrail_status` (lines 503-575). The
`describe_trails` call is the `describe` input; `get_trail_status` is the
per-name `getStatus` input. -/
def check_cloudtrail_status (describe : Except String (List Trail))
    (getStatus : String → Except String TrailStatus) : CloudTrailResult :=
  match describe with
  | .error e =>
    { Status := "Error", Message := none, TrailCount := none, HealthyTrailCount := none,
      MultiRegionTrailCount := none, Trails := none, Error := some e }
  | .ok trails =>
    if trails = [] then
      { Status := "NotConfigured", Message := some "No CloudTrail trails found",
        TrailCount := none, HealthyTrailCount := none, MultiRegionTrailCount := none,
        Trails := none, Error := none }
    else
      let trailDetails := trails.map (trailDetail getStatus)
      let healthyTrails := trailDetails.filter fun t => t.Status == "Healthy"
      let multiRegionTrails := trailDetails.filter fun t => t.IsMultiRegion
      { Status :=
          if healthyTrails ≠ [] then "Healthy"
          else if trails ≠ [] then "Suboptimal"
          else "NotConfigured"
        Message := none
        TrailCount := some trails.length
        HealthyTrailCount := some healthyTrails.length
        MultiRegionTrailCount := some multiRegionTrails.length
        Trails := some trailDetails
        Error := none }

/-! ## Specification-side definitions

Definitions below follow the wording of the specification (not the code);
the claim theorems compare the code-derived functions above against them. -/

/-- The whole address range of the network `(addr, pfx)` lies inside the
IPv4 block `(base, basePfx)`. -/
def rangeWithinB (addr pfx base basePfx : Nat) : Bool :=
  decide (base ≤ addr) &&
    decide (addr + 2 ^ (32 - pfx) - 1 ≤ base + 2 ^ (32 - basePfx) - 1)

/-- The spec's "private (RFC1918) block": a network lying inside
`10.0.0.0/8`, `172.16.0.0/12` or `192.168.0.0/16`. -/
def isRFC1918B : IpNet → Bool
  | .v4 a p =>
    rangeWithinB a p (mkV4 10 0 0 0) 8 || rangeWithinB a p (mkV4 172 16 0 0) 12 ||
      rangeWithinB a p (mkV4 192 168 0 0) 16
  | .v6 _ _ => false

/-- The spec's severity rule for one public (rule, CIDR) pair: protocol
"all" → HIGH with the whole configured port set; a port range meeting some
high-risk port → HIGH with exactly the ports inside the range; otherwise
MEDIUM with no ports. -/
def specSeverityPorts (high : List Int) (ipProtocol : String) (fromPort toPort : Int) :
    String × List Int :=
  if ipProtocol = "-1" then ("HIGH", high)
  else if high.any fun p => decide (fromPort ≤ p ∧ p ≤ toPort) then
    ("HIGH", high.filter fun p => decide (fromPort ≤ p ∧ p ≤ toPort))
  else ("MEDIUM", [])

/-- The fields of a finding the claims speak about: kind, severity,
affected ports, CIDR. -/
def issueProj (i : SGIssue) : String × String × List Int × String :=
  (i.IssueType, i.Severity, i.AffectedPorts, i.Cidr)

/-- The finding the spec prescribes for one public (rule, CIDR) pair,
projected to the claimed fields. -/
def specFindingProj (high : List Int) (rule : IpPermission) (r : IpRange) :
    String × String × List Int × String :=
  ("PublicAccess",
   (specSeverityPorts high (rule.IpProtocol.getD "-1") (rule.FromPort.getD 0)
      (rule.ToPort.getD 65535)).1,
   (specSeverityPorts high (rule.IpProtocol.getD "-1") (rule.FromPort.getD 0)
      (rule.ToPort.getD 65535)).2,
   r.CidrIp.getD "")

/-- The findings the dispatcher processes at all: those of kind
`PublicAccess` (line 172). -/
def publicAccessIssues (issues : List SGIssue) : List SGIssue :=
  issues.filter fun i => decide (i.IssueType = "PublicAccess")

/-- A processed finding is remediated iff its CIDR is present and the
revoke call succeeds on the reconstructed request. -/
def revokeSucceeds (revoke : String → Int → Int → String → Except String Unit)
    (i : SGIssue) : Bool :=
  decide (i.Cidr ≠ "") &&
    match revoke i.IpProtocol i.FromPort i.ToPort i.Cidr with
    | .ok _ => true
    | .error _ => false

/-- The failure entry recorded for a processed finding that is not
remediated: the missing-CIDR marker, or the provider error. -/
def failureEntry (revoke : String → Int → Int → String → Except String Unit)
    (i : SGIssue) : RemediationFailure :=
  if i.Cidr = "" then { Issue := i, Error := "Missing CIDR information" }
  else
    match revoke i.IpProtocol i.FromPort i.ToPort i.Cidr with
    | .ok _ => { Issue := i, Error := "" }
    | .error e => { Issue := i, Error := e }

/-- The remediated list and failure list the spec predicts for a batch. -/
def remediationOutcome (revoke : String → Int → Int → String → Except String Unit)
    (issues : List SGIssue) : List SGIssue × List RemediationFailure :=
  ((publicAccessIssues issues).filter (revokeSucceeds revoke),
   ((publicAccessIssues issues).filter fun i => ! revokeSucceeds revoke i).map
     (failureEntry revoke))

/-- The per-field status recorded under a key of the compliance report. -/
def lookupStatus (entries : List (String × String)) (key : String) : Option String :=
  (entries.find? fun item => item.1 == key).map fun item => item.2

/-- How many of the seven password-policy fields are marked compliant. -/
def compliantFieldCount (policy : PasswordPolicy) : Nat :=
  ((passwordComplianceEntries policy).filter fun item => item.2 == "Compliant").length

/-- The logging flag the evaluator ends up with for a trail: the looked-up
`IsLogging` when the status call succeeds, false when it fails. -/
def trailLogging (getStatus : String → Except String TrailStatus) (trail : Trail) : Bool :=
  match getStatus (trail.Name.getD "Unknown") with
  | .ok status => status.IsLogging.getD false
  | .error _ => false

/-- The spec's per-trail health: logging AND multi-region AND log-file
validation. -/
def trailHealthyB (getStatus : String → Except String TrailStatus) (trail : Trail) : Bool :=
  trailLogging getStatus trail && trail.IsMultiRegionTrail.getD false &&
    trail.LogFileValidationEnabled.getD false

/-! ## Concrete instances used by the claims -/

/-- A group with one ingress rule: tcp, ports 22-22, open to the world. -/
def sgSshOpen : SecurityGroup :=
  { GroupName := some "web", VpcId := some "vpc-1",
    IpPermissions :=
      [{ FromPort := some 22, ToPort := some 22, IpProtocol := some "tcp",
         IpRanges := [{ CidrIp := some "0.0.0.0/0" }] }] }

/-- A group with no ingress rules. -/
def sgNoRules : SecurityGroup :=
  { GroupName := some "empty", VpcId := none, IpPermissions := [] }

/-- A PublicAccess finding with a CIDR, as the evaluator emits it. -/
def issueOpenSsh : SGIssue :=
  { IssueType := "PublicAccess", Severity := "HIGH", FromPort := 22, ToPort := 22,
    IpProtocol := "tcp", Cidr := "0.0.0.0/0", AffectedPorts := [22],
    Description := "Public access (0.0.0.0/0) allowed to TCP port(s) 22" }

/-- A PublicAccess finding whose CIDR is missing (empty). -/
def issueNoCidr : SGIssue := { issueOpenSsh with Cidr := "" }

/-- A finding of a kind the dispatcher does not handle. -/
def issueOtherType : SGIssue := { issueOpenSsh with IssueType := "Unencrypted" }

/-- The spec's all-failing password policy example. -/
def policyAllBad : PasswordPolicy :=
  { MinimumPasswordLength := some 8, RequireSymbols := some false,
    RequireNumbers := some false, RequireUppercaseCharacters := some false,
    RequireLowercaseCharacters := some false, PasswordReusePrevention := some 0,
    MaxPasswordAge := some 365 }

/-- A policy meeting every best-practice threshold. -/
def policyBestPractice : PasswordPolicy :=
  { MinimumPasswordLength := some 14, RequireSymbols := some true,
    RequireNumbers := some true, RequireUppercaseCharacters := some true,
    RequireLowercaseCharacters := some true, PasswordReusePrevention := some 24,
    MaxPasswordAge := some 90 }

/-- As `policyBestPractice` but with a zero (falsy) max password age: every
directional threshold of the claim holds (0 ≤ 90), yet the code marks the
field NonCompliant. -/
def policyMaxAgeZero : PasswordPolicy := { policyBestPractice with MaxPasswordAge := some 0 }

/-- A multi-region, validation-enabled trail. -/
def trailGood : Trail :=
  { Name := some "main", IsMultiRegionTrail := some true,
    LogFileValidationEnabled := some true, IsOrganizationTrail := none, KmsKeyId := none }

/-! ## Helper lemmas -/

theorem one_le_two_pow_nat {n : Nat} : 1 ≤ 2 ^ n := Nat.one_le_two_pow

/-- An RFC1918 network is private in the `ipaddress` sense: both its first
and last address lie in the enclosing listed private block. -/
theorem rfc1918_isPrivate {n : IpNet} (h : isRFC1918B n = true) : n.isPrivate = true := by
  cases n with
  | v6 a p => simp [isRFC1918B] at h
  | v4 a p =>
    have blockmem : ∀ base basePfx, (base, basePfx) ∈ v4PrivateNetworks →
        rangeWithinB a p base basePfx = true → IpNet.isPrivate (.v4 a p) = true := by
      intro base basePfx hmem hr
      simp only [rangeWithinB, Bool.and_eq_true, decide_eq_true_eq] at hr
      have hlo : a ≤ a + 2 ^ (32 - p) - 1 := by
        have := @one_le_two_pow_nat (32 - p); omega
      simp only [IpNet.isPrivate, Bool.and_eq_true, v4AddrIsPrivate, List.any_eq_true]
      constructor
      · exact ⟨(base, basePfx), hmem, by
          simp only [addrInNetB, Bool.and_eq_true, decide_eq_true_eq]
          exact ⟨hr.1, le_trans hlo hr.2⟩⟩
      · exact ⟨(base, basePfx), hmem, by
          simp only [addrInNetB, Bool.and_eq_true, decide_eq_true_eq]
          exact ⟨le_trans hr.1 hlo, hr.2⟩⟩
    simp only [isRFC1918B, Bool.or_eq_true] at h
    rcases h with (h | h) | h
    · exact blockmem _ _ (by decide) h
    · exact blockmem _ _ (by decide) h
    · exact blockmem _ _ (by decide) h

/-- The exact classification `is_public_cidr` computes, as an iff. -/
theorem is_public_cidr_iff (c : String) :
    is_public_cidr c = true ↔
      (c = "0.0.0.0/0" ∨ c = "::/0" ∨
        ∃ n, ip_network c = some n ∧ n.isPrivate = false ∧ n.isReserved = false) := by
  by_cases h0 : c = ""
  · subst h0
    have hnone : ip_network "" = none := by decide
    simp [is_public_cidr, hnone]
  · by_cases h1 : c = "0.0.0.0/0" ∨ c = "::/0"
    · have : is_public_cidr c = true := by
        unfold is_public_cidr
        rw [if_neg h0, if_pos h1]
      rw [this]
      exact iff_of_true rfl (by tauto)
    · push_neg at h1
      unfold is_public_cidr
      rw [if_neg h0, if_neg (by tauto)]
      cases hnet : ip_network c with
      | none => simp [hnet, h1]
      | some n =>
        dsimp only
        constructor
        · intro h
          refine Or.inr (Or.inr ⟨n, rfl, ?_⟩)
          by_contra hcon
          rw [if_neg (by tauto)] at h
          cases h
        · rintro (h | h | ⟨n', hn', hpriv, hres⟩)
          · exact absurd h h1.1
          · exact absurd h h1.2
          · cases hn'
            rw [if_pos ⟨hpriv, hres⟩]

/-- A string that parses to no network (and is not one of the two special
strings) is classified non-public. -/
theorem is_public_cidr_of_none {c : String} (hnet : ip_network c = none)
    (h1 : c ≠ "0.0.0.0/0") (h2 : c ≠ "::/0") : is_public_cidr c = false := by
  rw [Bool.eq_false_iff]
  intro h
  rcases (is_public_cidr_iff c).mp h with h | h | ⟨n, hn, _⟩
  · exact h1 h
  · exact h2 h
  · rw [hnet] at hn; cases hn

/-- The port loop accumulates exactly "some high-risk port in range" and
the in-range sublist, over any initial accumulator. -/
theorem portScanFold_foldl (fromPort toPort : Int) (l : List Int) :
    ∀ (b : Bool) (acc : List Int),
      l.foldl
          (fun acc port =>
            if fromPort ≤ port ∧ port ≤ toPort then (true, acc.2 ++ [port]) else acc)
          (b, acc) =
        (b || l.any fun p => decide (fromPort ≤ p ∧ p ≤ toPort),
         acc ++ l.filter fun p => decide (fromPort ≤ p ∧ p ≤ toPort)) := by
  induction l with
  | nil => intro b acc; simp
  | cons p rest ih =>
    intro b acc
    rw [List.foldl_cons]
    by_cases hp : fromPort ≤ p ∧ p ≤ toPort
    · have hd : decide (fromPort ≤ p ∧ p ≤ toPort) = true := by simp [hp]
      rw [if_pos hp, ih, List.any_cons, List.filter_cons, hd]
      simp
    · have hd : decide (fromPort ≤ p ∧ p ≤ toPort) = false := by simp [hp]
      rw [if_neg hp, ih, List.any_cons, List.filter_cons, hd]
      simp

/-- `portScanFold` computes the any/filter pair of the spec. -/
theorem portScanFold_eq (ports : List Int) (fromPort toPort : Int) :
    portScanFold ports fromPort toPort =
      (ports.any fun p => decide (fromPort ≤ p ∧ p ≤ toPort),
       ports.filter fun p => decide (fromPort ≤ p ∧ p ≤ toPort)) := by
  unfold portScanFold
  rw [portScanFold_foldl]
  simp

/-- Projected onto the claimed fields, the issue built for one range is the
spec's finding, emitted exactly when the CIDR is public. -/
theorem issueForRange_proj (high : List Int) (rule : IpPermission) (r : IpRange) :
    (issueForRange high rule r).map issueProj =
      if is_public_cidr (r.CidrIp.getD "") then some (specFindingProj high rule r)
      else none := by
  by_cases hpub : is_public_cidr (r.CidrIp.getD "") = true
  · unfold issueForRange
    rw [if_pos hpub, if_pos hpub]
    dsimp only [Option.map_some', issueProj, specFindingProj, specSeverityPorts]
    by_cases hproto : rule.IpProtocol.getD "-1" = "-1"
    · rw [if_pos hproto, if_pos hproto]
      rfl
    · rw [if_neg hproto, if_neg hproto, portScanFold_eq]
      by_cases hany :
          (high.any fun p =>
            decide (rule.FromPort.getD 0 ≤ p ∧ p ≤ rule.ToPort.getD 65535)) = true
      · rw [if_pos hany, if_pos hany]
      · rw [Bool.not_eq_true] at hany
        have hfil :
            (high.filter fun p =>
              decide (rule.FromPort.getD 0 ≤ p ∧ p ≤ rule.ToPort.getD 65535)) = [] := by
          rw [List.filter_eq_nil_iff]
          rw [List.any_eq_false] at hany
          exact hany
        rw [if_neg (by rw [hany]; exact Bool.false_ne_true),
          if_neg (by rw [hany]; exact Bool.false_ne_true)]
        dsimp only
        rw [hfil]
  · rw [Bool.not_eq_true] at hpub
    rw [if_neg (by rw [hpub]; exact Bool.false_ne_true)]
    unfold issueForRange
    rw [if_neg (by rw [hpub]; exact Bool.false_ne_true)]
    rfl

/-- Per rule: the filter-mapped issues, projected, are the spec's findings
of the public ranges. -/
theorem filterMap_issueForRange (high : List Int) (rule : IpPermission) (rs : List IpRange) :
    (rs.filterMap (issueForRange high rule)).map issueProj =
      (rs.filter fun r => is_public_cidr (r.CidrIp.getD "")).map (specFindingProj high rule) := by
  induction rs with
  | nil => simp
  | cons r rest ih =>
    have h := issueForRange_proj high rule r
    rw [List.filterMap_cons, List.filter_cons]
    by_cases hpub : is_public_cidr (r.CidrIp.getD "") = true
    · rw [if_pos hpub] at h
      cases ho : issueForRange high rule r with
      | none => rw [ho] at h; cases h
      | some i =>
        rw [ho] at h
        rw [Option.map_some'] at h
        injection h with h
        simp only [ho, hpub, if_true, List.map_cons, ih, h]
    · rw [Bool.not_eq_true] at hpub
      rw [if_neg (by simp [hpub])] at h
      cases ho : issueForRange high rule r with
      | some i => rw [ho] at h; cases h
      | none => simp only [ho, hpub, Bool.false_eq_true, if_false, ih]

/-! ## Claim theorems -/

/-- C2: `is_public_cidr` returns true iff the string is exactly `0.0.0.0/0`
or `::/0`, or parses to a network that is neither private nor reserved; it
is false for every network lying in an RFC1918 private block or a reserved
block, false for empty input, and false (the function is total — no
exception escapes) for every string that parses to no network. -/
theorem is_public_cidr_spec :
    (∀ c : String, is_public_cidr c = true ↔
      (c = "0.0.0.0/0" ∨ c = "::/0" ∨
        ∃ n, ip_network c = some n ∧ n.isPrivate = false ∧ n.isReserved = false))
    ∧ (∀ (c : String) (n : IpNet), ip_network c = some n →
        isRFC1918B n = true ∨ n.isReserved = true → is_public_cidr c = false)
    ∧ (∀ c : String, ip_network c = none → c ≠ "0.0.0.0/0" → c ≠ "::/0" →
        is_public_cidr c = false)
    ∧ is_public_cidr "" = false
    ∧ is_public_cidr "0.0.0.0/0" = true ∧ is_public_cidr "::/0" = true
    ∧ is_public_cidr "10.0.0.0/8" = false ∧ is_public_cidr "172.16.0.0/12" = false
    ∧ is_public_cidr "192.168.0.0/16" = false ∧ is_public_cidr "240.0.0.0/4" = false
    ∧ is_public_cidr "not a cidr" = false := by
  refine ⟨is_public_cidr_iff, ?_, fun _ h h1 h2 => is_public_cidr_of_none h h1 h2, ?_⟩
  · intro c n hnet hcase
    rw [Bool.eq_false_iff]
    intro htrue
    rcases (is_public_cidr_iff c).mp htrue with h | h | ⟨n', hn', hpriv, hres⟩
    · subst h
      have heq : ip_network "0.0.0.0/0" = some (.v4 0 0) := by decide
      rw [heq] at hnet
      injection hnet with hnet
      subst hnet
      rcases hcase with h | h
      · exact absurd h (by decide)
      · exact absurd h (by decide)
    · subst h
      have heq : ip_network "::/0" = some (.v6 0 0) := by decide
      rw [heq] at hnet
      injection hnet with hnet
      subst hnet
      rcases hcase with h | h
      · exact absurd h (by decide)
      · exact absurd h (by decide)
    · rw [hnet] at hn'
      injection hn' with hn'
      subst hn'
      rcases hcase with h | h
      · rw [rfc1918_isPrivate h] at hpriv; cases hpriv
      · rw [h] at hres; cases hres
  · refine ⟨by decide, by decide, by decide, by decide, by decide, by decide, by decide,
      by decide⟩

/-- C9: a syntactically well-formed IPv4 CIDR whose address has host bits
set below the mask fails the strict network parse, so `is_public_cidr`
classifies it non-public even when its range is public — as for
`8.8.8.8/24`, whose aligned network `8.8.8.0/24` is public. -/
theorem is_public_cidr_hostbits :
    (∀ (c : String) (a p : Nat), parseIPv4Lenient c.data = some (a, p) →
      a % 2 ^ (32 - p) ≠ 0 → ip_network c = none ∧ is_public_cidr c = false)
    ∧ is_public_cidr "8.8.8.8/24" = false
    ∧ is_public_cidr "8.8.8.0/24" = true := by
  refine ⟨?_, by decide, by decide⟩
  intro c a p hlen hmis
  have hnet : ip_network c = none := by
    unfold ip_network
    rw [hlen]
    simp [hmis]
  have h1 : c ≠ "0.0.0.0/0" := by
    rintro rfl
    have heq : parseIPv4Lenient ("0.0.0.0/0".data) = some (0, 0) := by decide
    rw [heq] at hlen
    injection hlen with hlen
    rw [Prod.mk.injEq] at hlen
    apply hmis
    rw [← hlen.1, ← hlen.2]
    simp
  have h2 : c ≠ "::/0" := by
    rintro rfl
    have heq : parseIPv4Lenient ("::/0".data) = none := by decide
    rw [heq] at hlen
    cases hlen
  exact ⟨hnet, is_public_cidr_of_none hnet h1 h2⟩

/-- C1: on a found group, the evaluator emits exactly one PublicAccess
finding per (ingress rule, public CIDR) pair, with severity and affected
ports given by the spec's rule (`specSeverityPorts`); in particular the one
tcp/22-22/`0.0.0.0/0` rule yields exactly one HIGH finding with affected
ports [22] under the default port set. -/
theorem check_security_group_rules_findings :
    (∀ (sgId : String) (hp : Option (List Int)) (sg : SecurityGroup),
      ((check_security_group_rules sgId hp (Except.ok [sg])).Issues).map
          (List.map issueProj) =
        some (sg.IpPermissions.flatMap fun rule =>
          (rule.IpRanges.filter fun r => is_public_cidr (r.CidrIp.getD "")).map
            (specFindingProj (effectiveHighRiskPorts hp) rule)))
    ∧ ((check_security_group_rules "sg-123" none (Except.ok [sgSshOpen])).Issues).map
        (List.map issueProj) = some [("PublicAccess", "HIGH", [22], "0.0.0.0/0")]
    ∧ (check_security_group_rules "sg-123" none (Except.ok [sgSshOpen])).TotalIssues = some 1
    ∧ (check_security_group_rules "sg-123" none
        (Except.ok [sgSshOpen])).HighRiskIssues = some 1 := by
  refine ⟨?_, by decide, by decide, by decide⟩
  intro sgId hp sg
  show Option.map (List.map issueProj)
      (some (sg.IpPermissions.flatMap fun rule =>
        rule.IpRanges.filterMap (issueForRange (effectiveHighRiskPorts hp) rule))) = _
  rw [Option.map_some', List.map_flatMap]
  exact congrArg some (congrArg (List.flatMap sg.IpPermissions)
    (funext fun rule => filterMap_issueForRange (effectiveHighRiskPorts hp) rule rule.IpRanges))

/-- C7: the evaluator's status is HasIssues iff the finding list is
non-empty and Clean iff it is empty (a group with no ingress rules is
Clean with zero findings); a failed lookup or an absent group yields an
Error status with no findings attached, returned rather than raised (the
embedding is a total function). -/
theorem check_security_group_rules_status :
    (∀ (sgId : String) (hp : Option (List Int)) (sg : SecurityGroup)
        (rest : List SecurityGroup),
      ∃ issues,
        (check_security_group_rules sgId hp (Except.ok (sg :: rest))).Issues = some issues
        ∧ ((check_security_group_rules sgId hp (Except.ok (sg :: rest))).Status =
            "HasIssues" ↔ issues ≠ [])
        ∧ ((check_security_group_rules sgId hp (Except.ok (sg :: rest))).Status =
            "Clean" ↔ issues = [])
        ∧ (check_security_group_rules sgId hp (Except.ok (sg :: rest))).Error = none)
    ∧ (∀ (sgId : String) (hp : Option (List Int)) (e : String),
        (check_security_group_rules sgId hp (Except.error e)).Status = "Error"
        ∧ (check_security_group_rules sgId hp (Except.error e)).Issues = none
        ∧ (check_security_group_rules sgId hp (Except.error e)).Error = some e)
    ∧ (∀ (sgId : String) (hp : Option (List Int)),
        (check_security_group_rules sgId hp (Except.ok [])).Status = "Error"
        ∧ (check_security_group_rules sgId hp (Except.ok [])).Issues = none
        ∧ (check_security_group_rules sgId hp (Except.ok [])).Error =
            some "Security group not found")
    ∧ (check_security_group_rules "sg-9" none (Except.ok [sgNoRules])).Status = "Clean"
    ∧ (check_security_group_rules "sg-9" none (Except.ok [sgNoRules])).Issues = some []
    ∧ (check_security_group_rules "sg-9" none (Except.ok [sgNoRules])).TotalIssues =
        some 0 := by
  refine ⟨?_, fun _ _ _ => ⟨rfl, rfl, rfl⟩, fun _ _ => ⟨rfl, rfl, rfl⟩,
    by decide, by decide, by decide⟩
  intro sgId hp sg rest
  refine ⟨_, rfl, ?_, ?_, rfl⟩
  · show (if _ ≠ ([] : List SGIssue) then "HasIssues" else "Clean") = "HasIssues" ↔ _
    split_ifs with h
    · exact iff_of_true rfl h
    · exact iff_of_false (by decide) h
  · show (if _ ≠ ([] : List SGIssue) then "HasIssues" else "Clean") = "Clean" ↔ _
    split_ifs with h
    · exact iff_of_false (by decide) h
    · exact iff_of_true rfl (not_ne_iff.mp h)

/-- The dispatcher loop computes exactly the spec's remediated/failed
split, over any initial accumulator. -/
theorem remediation_foldl (revoke : String → Int → Int → String → Except String Unit)
    (issues : List SGIssue) :
    ∀ acc : List SGIssue × List RemediationFailure,
      issues.foldl (remediationStep revoke) acc =
        (acc.1 ++ (remediationOutcome revoke issues).1,
         acc.2 ++ (remediationOutcome revoke issues).2) := by
  induction issues with
  | nil => intro acc; simp [remediationOutcome, publicAccessIssues]
  | cons i rest ih =>
    intro acc
    rw [List.foldl_cons, ih]
    unfold remediationOutcome publicAccessIssues
    by_cases htype : i.IssueType = "PublicAccess"
    · by_cases hcidr : i.Cidr = ""
      · simp [remediationStep, htype, hcidr, List.filter_cons, revokeSucceeds, failureEntry,
          remediationOutcome, publicAccessIssues]
      · cases hrev : revoke i.IpProtocol i.FromPort i.ToPort i.Cidr with
        | ok u =>
          simp [remediationStep, htype, hcidr, hrev, List.filter_cons, revokeSucceeds,
            failureEntry, remediationOutcome, publicAccessIssues]
        | error e =>
          simp [remediationStep, htype, hcidr, hrev, List.filter_cons, revokeSucceeds,
            failureEntry, remediationOutcome, publicAccessIssues]
    · simp [remediationStep, htype, List.filter_cons, remediationOutcome, publicAccessIssues]

/-- C4: the dispatcher returns NoIssues on an empty batch; on a non-empty
batch the remediated/failed counts are the spec's split, with status
Remediated when everything processed succeeded, PartiallyRemediated on a
mix, Failed when nothing succeeded; a PublicAccess finding with an empty
CIDR is recorded as a failure with the missing-CIDR marker (no provider
error involved); the concrete two-finding batch with one empty CIDR is
PartiallyRemediated 1/1. -/
theorem remediate_security_group_issues_claims :
    (∀ (sgId : String) (revoke : String → Int → Int → String → Except String Unit),
        (remediate_security_group_issues sgId [] revoke).Status = "NoIssues")
    ∧ (∀ (sgId : String) (issues : List SGIssue)
          (revoke : String → Int → Int → String → Except String Unit),
        issues ≠ [] →
        (remediate_security_group_issues sgId issues revoke).RemediatedIssues =
            some (remediationOutcome revoke issues).1.length
        ∧ (remediate_security_group_issues sgId issues revoke).FailedRemediations =
            some (remediationOutcome revoke issues).2.length
        ∧ ((remediationOutcome revoke issues).1 ≠ [] →
            (remediationOutcome revoke issues).2 = [] →
            (remediate_security_group_issues sgId issues revoke).Status = "Remediated")
        ∧ ((remediationOutcome revoke issues).1 ≠ [] →
            (remediationOutcome revoke issues).2 ≠ [] →
            (remediate_security_group_issues sgId issues revoke).Status =
              "PartiallyRemediated")
        ∧ ((remediationOutcome revoke issues).1 = [] →
            (remediate_security_group_issues sgId issues revoke).Status = "Failed"))
    ∧ (∀ (revoke : String → Int → Int → String → Except String Unit) (i : SGIssue),
        i.IssueType = "PublicAccess" → i.Cidr = "" →
        revokeSucceeds revoke i = false
        ∧ failureEntry revoke i = { Issue := i, Error := "Missing CIDR information" }
        ∧ (remediate_security_group_issues "sg" [i] revoke).DetailsFailed =
            some [{ Issue := i, Error := "Missing CIDR information" }])
    ∧ (remediate_security_group_issues "sg-1" [issueOpenSsh, issueNoCidr]
        (fun _ _ _ _ => Except.ok ())).Status = "PartiallyRemediated"
    ∧ (remediate_security_group_issues "sg-1" [issueOpenSsh, issueNoCidr]
        (fun _ _ _ _ => Except.ok ())).RemediatedIssues = some 1
    ∧ (remediate_security_group_issues "sg-1" [issueOpenSsh, issueNoCidr]
        (fun _ _ _ _ => Except.ok ())).FailedRemediations = some 1 := by
  refine ⟨fun _ _ => rfl, ?_, ?_, by decide, by decide, by decide⟩
  · intro sgId issues revoke hne
    unfold remediate_security_group_issues
    rw [if_neg hne, remediation_foldl]
    simp only [List.nil_append]
    refine ⟨trivial, trivial, ?_, ?_, ?_⟩
    · intro h1 h2
      show (if _ then "Remediated" else if _ then "PartiallyRemediated" else "Failed") = _
      rw [if_pos ⟨h1, h2⟩]
    · intro h1 h2
      show (if _ then "Remediated" else if _ then "PartiallyRemediated" else "Failed") = _
      rw [if_neg (fun hc => h2 hc.2), if_pos h1]
    · intro h1
      show (if _ then "Remediated" else if _ then "PartiallyRemediated" else "Failed") = _
      rw [if_neg (fun hc => hc.1 h1), if_neg (fun hc => hc h1)]
  · intro revoke i htype hcidr
    refine ⟨by simp [revokeSucceeds, hcidr], by simp [failureEntry, hcidr], ?_⟩
    unfold remediate_security_group_issues
    rw [if_neg (by simp)]
    show some ([i].foldl (remediationStep revoke) ([], [])).2 = _
    rw [List.foldl_cons, List.foldl_nil]
    unfold remediationStep
    rw [if_pos htype, if_pos hcidr]
    rfl

/-- C10: findings whose kind is not PublicAccess are skipped entirely —
counted neither as remediated nor as failed — so a non-empty batch of only
such findings returns status Failed with both counts zero. -/
theorem remediate_security_group_issues_skips_non_public :
    (∀ (sgId : String) (issues : List SGIssue)
        (revoke : String → Int → Int → String → Except String Unit),
      issues ≠ [] → (∀ i ∈ issues, i.IssueType ≠ "PublicAccess") →
      publicAccessIssues issues = []
      ∧ (remediate_security_group_issues sgId issues revoke).Status = "Failed"
      ∧ (remediate_security_group_issues sgId issues revoke).RemediatedIssues = some 0
      ∧ (remediate_security_group_issues sgId issues revoke).FailedRemediations = some 0)
    ∧ (remediate_security_group_issues "sg-1" [issueOtherType]
        (fun _ _ _ _ => Except.ok ())).Status = "Failed"
    ∧ (remediate_security_group_issues "sg-1" [issueOtherType]
        (fun _ _ _ _ => Except.ok ())).RemediatedIssues = some 0
    ∧ (remediate_security_group_issues "sg-1" [issueOtherType]
        (fun _ _ _ _ => Except.ok ())).FailedRemediations = some 0 := by
  refine ⟨?_, by decide, by decide, by decide⟩
  intro sgId issues revoke hne hall
  have hpa : publicAccessIssues issues = [] := by
    rw [publicAccessIssues, List.filter_eq_nil_iff]
    intro i hi
    simpa using hall i hi
  have hout1 : (remediationOutcome revoke issues).1 = [] := by
    rw [remediationOutcome]
    dsimp only
    rw [hpa]
    rfl
  have hout2 : (remediationOutcome revoke issues).2 = [] := by
    rw [remediationOutcome]
    dsimp only
    rw [hpa]
    rfl
  refine ⟨hpa, ?_, ?_, ?_⟩
  · unfold remediate_security_group_issues
    rw [if_neg hne, remediation_foldl]
    simp only [List.nil_append]
    show (if _ then "Remediated" else if _ then "PartiallyRemediated" else "Failed") = _
    rw [if_neg (fun hc => hc.1 hout1), if_neg (fun hc => hc hout1)]
  · unfold remediate_security_group_issues
    rw [if_neg hne, remediation_foldl]
    simp only [List.nil_append]
    show some (remediationOutcome revoke issues).1.length = some 0
    rw [hout1]
    rfl
  · unfold remediate_security_group_issues
    rw [if_neg hne, remediation_foldl]
    simp only [List.nil_append]
    show some (remediationOutcome revoke issues).2.length = some 0
    rw [hout2]
    rfl

theorem truthyGE_iff (v : Option Nat) (r : Nat) (hr : 0 < r) :
    truthyGE v r = true ↔ ∃ n, v = some n ∧ r ≤ n := by
  cases v with
  | none => simp [truthyGE]
  | some n =>
    simp only [truthyGE, Bool.and_eq_true, bne_iff_ne, ne_eq, decide_eq_true_eq,
      Option.some.injEq]
    constructor
    · rintro ⟨h1, h2⟩
      exact ⟨n, rfl, h2⟩
    · rintro ⟨m, hm, h2⟩
      cases hm
      exact ⟨by omega, h2⟩

theorem truthyLE_iff (v : Option Nat) (r : Nat) :
    truthyLE v r = true ↔ ∃ n, v = some n ∧ n ≠ 0 ∧ n ≤ r := by
  cases v with
  | none => simp [truthyLE]
  | some n =>
    simp only [truthyLE, Bool.and_eq_true, bne_iff_ne, ne_eq, decide_eq_true_eq,
      Option.some.injEq]
    constructor
    · rintro ⟨h1, h2⟩
      exact ⟨n, rfl, h1, h2⟩
    · rintro ⟨m, hm, h1, h2⟩
      cases hm
      exact ⟨h1, h2⟩

theorem truthyBool_iff (v : Option Bool) : truthyBool v = true ↔ v = some true := by
  cases v with
  | none => simp [truthyBool]
  | some b => cases b <;> simp [truthyBool]

theorem ifCompliant_eq_iff (b : Bool) :
    (if b = true then "Compliant" else "NonCompliant") = "Compliant" ↔ b = true := by
  cases b <;> simp

theorem compliantFieldCount_le (p : PasswordPolicy) : compliantFieldCount p ≤ 7 :=
  le_trans (List.length_filter_le _ _)
    (le_of_eq (rfl : (passwordComplianceEntries p).length = 7))

/-- Evaluated on a present policy, the checker reports the compliance
table, the count-based percentage, and a status classified purely by the
compliant-field count. -/
theorem check_iam_password_policy_ok (p : PasswordPolicy) :
    (check_iam_password_policy (Except.ok p)).ComplianceDetails =
        some (passwordComplianceEntries p)
    ∧ (check_iam_password_policy (Except.ok p)).CompliancePercentage =
        some (((compliantFieldCount p : ℚ) / 7) * 100)
    ∧ ((check_iam_password_policy (Except.ok p)).Status = "Compliant" ↔
        compliantFieldCount p = 7)
    ∧ ((check_iam_password_policy (Except.ok p)).Status = "PartiallyCompliant" ↔
        0 < compliantFieldCount p ∧ compliantFieldCount p < 7)
    ∧ ((check_iam_password_policy (Except.ok p)).Status = "NonCompliant" ↔
        compliantFieldCount p = 0) := by
  have hle := compliantFieldCount_le p
  unfold check_iam_password_policy
  dsimp only
  have hlen : (passwordComplianceEntries p).length = 7 := rfl
  have hcnt : ((passwordComplianceEntries p).filter fun item => item.2 == "Compliant").length =
      compliantFieldCount p := rfl
  rw [hlen, hcnt]
  rw [if_pos (by norm_num : (0 : Nat) < 7)]
  have hcast : ((7 : Nat) : ℚ) = 7 := by norm_num
  rw [hcast]
  refine ⟨rfl, rfl, ?_, ?_, ?_⟩ <;>
    · set c := compliantFieldCount p with hc
      clear_value c
      interval_cases c <;> (norm_num <;> decide)

/-- C3 counterexample: a policy meeting every directional threshold of the
claim — in particular max age 0 with 0 ≤ 90 — is nevertheless not reported
Compliant: the code's truthiness test marks the zero max age NonCompliant,
so the overall status is PartiallyCompliant. -/
theorem check_iam_password_policy_maxage_zero_cex :
    policyMaxAgeZero.MaxPasswordAge = some 0
    ∧ (0 : Nat) ≤ 90
    ∧ truthyGE policyMaxAgeZero.MinimumPasswordLength 14 = true
    ∧ truthyBool policyMaxAgeZero.RequireSymbols = true
    ∧ truthyBool policyMaxAgeZero.RequireNumbers = true
    ∧ truthyBool policyMaxAgeZero.RequireUppercaseCharacters = true
    ∧ truthyBool policyMaxAgeZero.RequireLowercaseCharacters = true
    ∧ truthyGE policyMaxAgeZero.PasswordReusePrevention 24 = true
    ∧ lookupStatus (passwordComplianceEntries policyMaxAgeZero) "MaxPasswordAge" =
        some "NonCompliant"
    ∧ (check_iam_password_policy (Except.ok policyMaxAgeZero)).Status = "PartiallyCompliant"
    ∧ ¬ (check_iam_password_policy (Except.ok policyMaxAgeZero)).Status = "Compliant" := by
  have h := check_iam_password_policy_ok policyMaxAgeZero
  have hc : compliantFieldCount policyMaxAgeZero = 6 := by decide
  refine ⟨rfl, by norm_num, by decide, by decide, by decide, by decide, by decide, by decide,
    by decide, ?_, ?_⟩
  · exact h.2.2.2.1.mpr (by rw [hc]; exact ⟨by norm_num, by norm_num⟩)
  · intro hcomp
    have h7 := h.2.2.1.mp hcomp
    rw [hc] at h7
    exact absurd h7 (by norm_num)

/-- C3 (amended): each of the seven fields is Compliant exactly when its
value is present and truthy and meets its directional threshold — minimum
length ≥ 14, reuse prevention ≥ 24, max age nonzero and ≤ 90, the four
requirement flags true; the overall status is Compliant iff all seven
fields are compliant, PartiallyCompliant iff some but not all are, and
NonCompliant iff none is; the claim's two concrete examples hold. -/
theorem check_iam_password_policy_amended :
    (∀ p : PasswordPolicy,
      (lookupStatus (passwordComplianceEntries p) "MinimumPasswordLength" =
          some "Compliant" ↔ ∃ n, p.MinimumPasswordLength = some n ∧ 14 ≤ n)
      ∧ (lookupStatus (passwordComplianceEntries p) "RequireSymbols" = some "Compliant" ↔
          p.RequireSymbols = some true)
      ∧ (lookupStatus (passwordComplianceEntries p) "RequireNumbers" = some "Compliant" ↔
          p.RequireNumbers = some true)
      ∧ (lookupStatus (passwordComplianceEntries p) "RequireUppercaseCharacters" =
          some "Compliant" ↔ p.RequireUppercaseCharacters = some true)
      ∧ (lookupStatus (passwordComplianceEntries p) "RequireLowercaseCharacters" =
          some "Compliant" ↔ p.RequireLowercaseCharacters = some true)
      ∧ (lookupStatus (passwordComplianceEntries p) "PasswordReusePrevention" =
          some "Compliant" ↔ ∃ n, p.PasswordReusePrevention = some n ∧ 24 ≤ n)
      ∧ (lookupStatus (passwordComplianceEntries p) "MaxPasswordAge" = some "Compliant" ↔
          ∃ n, p.MaxPasswordAge = some n ∧ n ≠ 0 ∧ n ≤ 90)
      ∧ (check_iam_password_policy (Except.ok p)).ComplianceDetails =
          some (passwordComplianceEntries p)
      ∧ (check_iam_password_policy (Except.ok p)).CompliancePercentage =
          some (((compliantFieldCount p : ℚ) / 7) * 100)
      ∧ ((check_iam_password_policy (Except.ok p)).Status = "Compliant" ↔
          compliantFieldCount p = 7)
      ∧ ((check_iam_password_policy (Except.ok p)).Status = "PartiallyCompliant" ↔
          0 < compliantFieldCount p ∧ compliantFieldCount p < 7)
      ∧ ((check_iam_password_policy (Except.ok p)).Status = "NonCompliant" ↔
          compliantFieldCount p = 0))
    ∧ (check_iam_password_policy (Except.ok policyAllBad)).CompliancePercentage = some 0
    ∧ (check_iam_password_policy (Except.ok policyAllBad)).Status = "NonCompliant"
    ∧ (check_iam_password_policy (Except.ok policyBestPractice)).CompliancePercentage =
        some 100
    ∧ (check_iam_password_policy (Except.ok policyBestPractice)).Status = "Compliant" := by
  have hfields : ∀ p : PasswordPolicy,
      (lookupStatus (passwordComplianceEntries p) "MinimumPasswordLength" =
          some "Compliant" ↔ ∃ n, p.MinimumPasswordLength = some n ∧ 14 ≤ n)
      ∧ (lookupStatus (passwordComplianceEntries p) "RequireSymbols" = some "Compliant" ↔
          p.RequireSymbols = some true)
      ∧ (lookupStatus (passwordComplianceEntries p) "RequireNumbers" = some "Compliant" ↔
          p.RequireNumbers = some true)
      ∧ (lookupStatus (passwordComplianceEntries p) "RequireUppercaseCharacters" =
          some "Compliant" ↔ p.RequireUppercaseCharacters = some true)
      ∧ (lookupStatus (passwordComplianceEntries p) "RequireLowercaseCharacters" =
          some "Compliant" ↔ p.RequireLowercaseCharacters = some true)
      ∧ (lookupStatus (passwordComplianceEntries p) "PasswordReusePrevention" =
          some "Compliant" ↔ ∃ n, p.PasswordReusePrevention = some n ∧ 24 ≤ n)
      ∧ (lookupStatus (passwordComplianceEntries p) "MaxPasswordAge" = some "Compliant" ↔
          ∃ n, p.MaxPasswordAge = some n ∧ n ≠ 0 ∧ n ≤ 90) := by
    intro p
    refine ⟨?_, ?_, ?_, ?_, ?_, ?_, ?_⟩
    · have hkey0 : lookupStatus (passwordComplianceEntries p) "MinimumPasswordLength" =
          some (if truthyGE p.MinimumPasswordLength 14 then "Compliant" else "NonCompliant") := rfl
      rw [hkey0, Option.some.injEq, ifCompliant_eq_iff]
      exact truthyGE_iff _ _ (by norm_num)
    · have hkey1 : lookupStatus (passwordComplianceEntries p) "RequireSymbols" =
          some (if truthyBool p.RequireSymbols then "Compliant" else "NonCompliant") := rfl
      rw [hkey1, Option.some.injEq, ifCompliant_eq_iff]
      exact truthyBool_iff _
    · have hkey2 : lookupStatus (passwordComplianceEntries p) "RequireNumbers" =
          some (if truthyBool p.RequireNumbers then "Compliant" else "NonCompliant") := rfl
      rw [hkey2, Option.some.injEq, ifCompliant_eq_iff]
      exact truthyBool_iff _
    · have hkey3 : lookupStatus (passwordComplianceEntries p) "RequireUppercaseCharacters" =
          some (if truthyBool p.RequireUppercaseCharacters then "Compliant" else "NonCompliant") := rfl
      rw [hkey3, Option.some.injEq, ifCompliant_eq_iff]
      exact truthyBool_iff _
    · have hkey4 : lookupStatus (passwordComplianceEntries p) "RequireLowercaseCharacters" =
          some (if truthyBool p.RequireLowercaseCharacters then "Compliant" else "NonCompliant") := rfl
      rw [hkey4, Option.some.injEq, ifCompliant_eq_iff]
      exact truthyBool_iff _
    · have hkey5 : lookupStatus (passwordComplianceEntries p) "PasswordReusePrevention" =
          some (if truthyGE p.PasswordReusePrevention 24 then "Compliant" else "NonCompliant") := rfl
      rw [hkey5, Option.some.injEq, ifCompliant_eq_iff]
      exact truthyGE_iff _ _ (by norm_num)
    · have hkey6 : lookupStatus (passwordComplianceEntries p) "MaxPasswordAge" =
          some (if truthyLE p.MaxPasswordAge 90 then "Compliant" else "NonCompliant") := rfl
      rw [hkey6, Option.some.injEq, ifCompliant_eq_iff]
      exact truthyLE_iff _ _
  have hbad : compliantFieldCount policyAllBad = 0 := by decide
  have hgood : compliantFieldCount policyBestPractice = 7 := by decide
  have hb := check_iam_password_policy_ok policyAllBad
  have hg := check_iam_password_policy_ok policyBestPractice
  refine ⟨?_, ?_, ?_, ?_, ?_⟩
  · intro p
    have hp := check_iam_password_policy_ok p
    have hf := hfields p
    exact ⟨hf.1, hf.2.1, hf.2.2.1, hf.2.2.2.1, hf.2.2.2.2.1, hf.2.2.2.2.2.1,
      hf.2.2.2.2.2.2, hp.1, hp.2.1, hp.2.2.1, hp.2.2.2.1, hp.2.2.2.2⟩
  · rw [hb.2.1, hbad]
    norm_num
  · exact hb.2.2.2.2.mpr hbad
  · rw [hg.2.1, hgood]
    norm_num
  · exact hg.2.2.1.mpr hgood

/-- C8: when the provider reports no password policy ("NoSuchEntity"), the
evaluator returns a successful NonCompliant result with percentage 0 and
the explicit "no policy set" message, not an Error-status result (and the
embedding is total, so nothing is raised). -/
theorem check_iam_password_policy_no_policy :
    (∀ e : String, strContains e "NoSuchEntity" = true →
      (check_iam_password_policy (Except.error e)).Status = "NonCompliant"
      ∧ (check_iam_password_policy (Except.error e)).CompliancePercentage = some 0
      ∧ (check_iam_password_policy (Except.error e)).Error =
          some "No password policy is set"
      ∧ (check_iam_password_policy (Except.error e)).Status ≠ "Error")
    ∧ (check_iam_password_policy (Except.error
        "An error occurred (NoSuchEntity) when calling the GetAccountPasswordPolicy operation")).Status
        = "NonCompliant"
    ∧ (check_iam_password_policy (Except.error
        "An error occurred (NoSuchEntity) when calling the GetAccountPasswordPolicy operation")).CompliancePercentage
        = some 0
    ∧ (check_iam_password_policy (Except.error
        "An error occurred (NoSuchEntity) when calling the GetAccountPasswordPolicy operation")).Error
        = some "No password policy is set" := by
  refine ⟨?_, rfl, rfl, rfl⟩
  intro e h
  unfold check_iam_password_policy
  dsimp only
  rw [if_pos h]
  exact ⟨rfl, rfl, rfl, by decide⟩

theorem if_healthy_iff (b : Bool) :
    ((if b = true then "Healthy" else "Suboptimal") = "Healthy") ↔ b = true := by
  cases b <;> simp

/-- A trail's detail status is Healthy exactly when the spec's per-trail
health predicate holds. -/
theorem trailDetail_status_iff (getStatus : String → Except String TrailStatus)
    (trail : Trail) :
    (trailDetail getStatus trail).Status = "Healthy" ↔
      trailHealthyB getStatus trail = true := by
  show (if (trailLogging getStatus trail && trail.IsMultiRegionTrail.getD false &&
      trail.LogFileValidationEnabled.getD false) = true then "Healthy" else "Suboptimal") =
      "Healthy" ↔ _
  exact if_healthy_iff _

/-- The healthy-trail filter is empty exactly when no trail is healthy. -/
theorem healthy_filter_nil_iff (getStatus : String → Except String TrailStatus)
    (trails : List Trail) :
    ((trails.map (trailDetail getStatus)).filter fun t => t.Status == "Healthy") = [] ↔
      ∀ t ∈ trails, trailHealthyB getStatus t = false := by
  rw [List.filter_eq_nil_iff]
  constructor
  · intro h t ht
    have hd := h (trailDetail getStatus t) (List.mem_map_of_mem _ ht)
    rw [beq_iff_eq] at hd
    rw [Bool.eq_false_iff]
    intro hb
    exact hd ((trailDetail_status_iff getStatus t).mpr hb)
  · intro h d hd
    rcases List.mem_map.mp hd with ⟨t, ht, rfl⟩
    rw [beq_iff_eq]
    intro hs
    have := (trailDetail_status_iff getStatus t).mp hs
    rw [h t ht] at this
    cases this

/-- C5: with zero trails the account status is NotConfigured; a trail is
Healthy iff it is logging, multi-region and validation-enabled (Suboptimal
otherwise); with trails present the account is Healthy iff some trail is
healthy and Suboptimal iff none is; a failing per-trail logging lookup
makes that trail count as not logging, and a successful describe never
yields an Error result. -/
theorem check_cloudtrail_status_claims :
    (∀ getStatus : String → Except String TrailStatus,
      (check_cloudtrail_status (Except.ok []) getStatus).Status = "NotConfigured")
    ∧ (∀ (getStatus : String → Except String TrailStatus) (trail : Trail),
        ((trailDetail getStatus trail).Status = "Healthy" ↔
          trailHealthyB getStatus trail = true)
        ∧ ((trailDetail getStatus trail).Status = "Healthy" ∨
            (trailDetail getStatus trail).Status = "Suboptimal"))
    ∧ (∀ (getStatus : String → Except String TrailStatus) (trail : Trail),
        trailHealthyB getStatus trail = true ↔
          trailLogging getStatus trail = true ∧ trail.IsMultiRegionTrail.getD false = true ∧
            trail.LogFileValidationEnabled.getD false = true)
    ∧ (∀ (trails : List Trail) (getStatus : String → Except String TrailStatus),
        trails ≠ [] →
        ((check_cloudtrail_status (Except.ok trails) getStatus).Status = "Healthy" ↔
          ∃ t ∈ trails, trailHealthyB getStatus t = true)
        ∧ ((check_cloudtrail_status (Except.ok trails) getStatus).Status = "Suboptimal" ↔
          ∀ t ∈ trails, trailHealthyB getStatus t = false))
    ∧ (∀ (getStatus : String → Except String TrailStatus) (trail : Trail) (e : String),
        getStatus (trail.Name.getD "Unknown") = Except.error e →
        (trailDetail getStatus trail).IsLogging = false)
    ∧ (∀ (trails : List Trail) (getStatus : String → Except String TrailStatus),
        (check_cloudtrail_status (Except.ok trails) getStatus).Status ≠ "Error"
        ∧ (check_cloudtrail_status (Except.ok trails) getStatus).Error = none)
    ∧ (check_cloudtrail_status (Except.ok [trailGood])
        (fun _ => Except.ok { IsLogging := some true })).Status = "Healthy"
    ∧ (check_cloudtrail_status (Except.ok [trailGood])
        (fun _ => Except.error "AccessDenied")).Status = "Suboptimal" := by
  refine ⟨fun _ => rfl, ?_, ?_, ?_, ?_, ?_, by decide, by decide⟩
  · intro getStatus trail
    refine ⟨trailDetail_status_iff getStatus trail, ?_⟩
    show (if _ then "Healthy" else "Suboptimal") = "Healthy" ∨
      (if _ then "Healthy" else "Suboptimal") = "Suboptimal"
    split_ifs
    · exact Or.inl rfl
    · exact Or.inr rfl
  · intro getStatus trail
    simp [trailHealthyB, Bool.and_eq_true, and_assoc]
  · intro trails getStatus hne
    unfold check_cloudtrail_status
    dsimp only
    rw [if_neg hne]
    constructor
    · show (if _ ≠ [] then "Healthy" else if _ then "Suboptimal" else "NotConfigured") =
        "Healthy" ↔ _
      split_ifs with hfil
      · refine iff_of_true rfl ?_
        rcases List.exists_cons_of_ne_nil hfil with ⟨d, ds, hcons⟩
        have hdmem : d ∈ (trails.map (trailDetail getStatus)).filter
            fun t => t.Status == "Healthy" := by rw [hcons]; exact List.mem_cons_self _ _
        rcases List.mem_filter.mp hdmem with ⟨hdm, hdst⟩
        rcases List.mem_map.mp hdm with ⟨t, ht, rfl⟩
        rw [beq_iff_eq] at hdst
        exact ⟨t, ht, (trailDetail_status_iff getStatus t).mp hdst⟩
      · refine iff_of_false (by decide) ?_
        rw [not_ne_iff] at hfil
        rw [healthy_filter_nil_iff] at hfil
        rintro ⟨t, ht, hb⟩
        rw [hfil t ht] at hb
        cases hb
    · show (if _ ≠ [] then "Healthy" else if _ then "Suboptimal" else "NotConfigured") =
        "Suboptimal" ↔ _
      split_ifs with hfil
      · refine iff_of_false (by decide) ?_
        intro hall
        rw [← healthy_filter_nil_iff getStatus trails] at hall
        exact hfil hall
      · rw [not_ne_iff, healthy_filter_nil_iff] at hfil
        exact iff_of_true rfl hfil
  · intro getStatus trail e hgs
    show (match getStatus (trail.Name.getD "Unknown") with
      | .ok status => status.IsLogging.getD false
      | .error _ => false) = false
    rw [hgs]
  · intro trails getStatus
    unfold check_cloudtrail_status
    dsimp only
    split_ifs <;> exact ⟨by dsimp only; decide, rfl⟩

/-- C6: the S3 check is Unencrypted on an absent or empty rule list, and
otherwise Encrypted with hasSSE true iff some rule has an algorithm and
hasKMS true iff some rule's algorithm is the KMS identifier; re-checking
the configuration built by enable-encryption with no key id yields
Encrypted with hasSSE and without hasKMS, and the enable call itself
reports the default algorithm. -/
theorem check_s3_bucket_encryption_claims :
    (∀ b : String,
      (check_s3_bucket_encryption b (Except.ok { Rules := [] })).Status = "Unencrypted")
    ∧ (∀ b e : String,
        strContains e "ServerSideEncryptionConfigurationNotFoundError" = true →
        (check_s3_bucket_encryption b (Except.error e)).Status = "Unencrypted"
        ∧ (check_s3_bucket_encryption b (Except.error e)).Error = none)
    ∧ (∀ (b : String) (cfg : SSEConfig), cfg.Rules ≠ [] →
        (check_s3_bucket_encryption b (Except.ok cfg)).Status = "Encrypted"
        ∧ ((check_s3_bucket_encryption b (Except.ok cfg)).HasSSE = some true ↔
            ∃ rule ∈ cfg.Rules, ruleAlg rule ≠ "")
        ∧ ((check_s3_bucket_encryption b (Except.ok cfg)).HasKMS = some true ↔
            ∃ rule ∈ cfg.Rules, ruleAlg rule = "aws:kms"))
    ∧ (∀ b : String,
        (check_s3_bucket_encryption b (Except.ok (enableEncryptionConfig none))).Status =
            "Encrypted"
        ∧ (check_s3_bucket_encryption b (Except.ok (enableEncryptionConfig none))).HasSSE =
            some true
        ∧ (check_s3_bucket_encryption b (Except.ok (enableEncryptionConfig none))).HasKMS =
            some false)
    ∧ (∀ (b : String) (put : SSEConfig → Except String Unit),
        (∀ cfg, put cfg = Except.ok ()) →
        (enable_s3_bucket_encryption b none put).Status = "Enabled"
        ∧ (enable_s3_bucket_encryption b none put).EncryptionType = some "AES256") := by
  refine ⟨fun _ => rfl, ?_, ?_, fun _ => ⟨rfl, rfl, rfl⟩, ?_⟩
  · intro b e h
    unfold check_s3_bucket_encryption
    dsimp only
    rw [if_pos h]
    exact ⟨rfl, rfl⟩
  · intro b cfg hne
    unfold check_s3_bucket_encryption
    dsimp only
    rw [if_neg hne]
    refine ⟨rfl, ?_, ?_⟩
    · show some (cfg.Rules.any fun rule => ruleAlg rule != "") = some true ↔ _
      rw [Option.some.injEq, List.any_eq_true]
      constructor
      · rintro ⟨r, hr, ha⟩
        rw [bne_iff_ne] at ha
        exact ⟨r, hr, ha⟩
      · rintro ⟨r, hr, ha⟩
        exact ⟨r, hr, by rw [bne_iff_ne]; exact ha⟩
    · show some (cfg.Rules.any fun rule => ruleAlg rule == "aws:kms") = some true ↔ _
      rw [Option.some.injEq, List.any_eq_true]
      constructor
      · rintro ⟨r, hr, ha⟩
        rw [beq_iff_eq] at ha
        exact ⟨r, hr, ha⟩
      · rintro ⟨r, hr, ha⟩
        exact ⟨r, hr, by rw [beq_iff_eq]; exact ha⟩
  · intro b put hput
    unfold enable_s3_bucket_encryption
    rw [hput]
    exact ⟨rfl, rfl⟩

end SecurityHelpers
